import Mathlib

/-!
Verification of the MPG-review browser capture scripts.

Shallow embedding of the network-capture utilities in `extract_no_har.js`,
`extract_data_simple.js` and the unnamed full extractor (safe serializer,
fallback export).  Host primitives (`JSON.parse`, wall-clock times, the real
network) are passed in as explicit parameters or carried as data on the
observed calls.
-/

namespace MPG

/-- Model of JavaScript `String.prototype.substring(0, n)`: the first `n`
characters of `s`. -/
def strTake (s : String) (n : Nat) : String :=
  String.mk (s.data.take n)

/-- Model of JavaScript `String.prototype.includes(pat)`: `pat` occurs as a
contiguous substring of `s`. -/
def strContainsSub (s pat : String) : Bool :=
  (List.range (s.length + 1)).any (fun i => ((s.data.drop i).take pat.data.length) == pat.data)

/-- JSON values, the possible results of `JSON.parse` (and hence of captured
structured response payloads). -/
inductive JVal where
  | jnull
  | jbool (b : Bool)
  | jnum (n : Int)
  | jstr (s : String)
  | jarr (elems : List JVal)
  | jobj (fields : List (String × JVal))

/-- JavaScript truthiness restricted to JSON values: `null`, `false`, `0` and
the empty string are falsy; every other JSON value (including `{}` and `[]`)
is truthy. -/
def jsTruthy : JVal → Bool
  | .jnull => false
  | .jbool b => b
  | .jnum n => n != 0
  | .jstr s => s != ""
  | .jarr _ => true
  | .jobj _ => true

/-- Model of the JavaScript expression `x || null` on an optional string,
where an absent field and the empty string are both falsy. -/
def textOrNull : Option String → JVal
  | some t => if t = "" then .jnull else .jstr t
  | none => .jnull

/-- Model of `options.method || 'GET'` (absent and empty string both fall
back to `GET`). -/
def jsMethod : Option String → String
  | some s => if s = "" then "GET" else s
  | none => "GET"

/-- Model of `options.body || null`. -/
def jsBodyOrNull : Option String → Option String
  | some s => if s = "" then none else some s
  | none => none

/-! ## Embedding of `extract_no_har.js` -/

/-- The URL filter of `extract_no_har.js`:
`url.includes('api.mpg') || url.includes('mpg.football/api')`. -/
def matchesFilter (url : String) : Bool :=
  strContainsSub url "api.mpg" || strContainsSub url "mpg.football/api"

/-- Body argument handed to `XMLHttpRequest.prototype.send`. -/
inductive SendBody where
  | strB (s : String)
  | binB

/-- Model of `body ? (typeof body === 'string' ? body : '[Binary Data]') : null`
(note that an empty-string body is falsy and maps to `null`). -/
def reqBodyRepr : Option SendBody → Option String
  | none => none
  | some (.strB s) => if s = "" then none else some s
  | some .binB => some "[Binary Data]"

/-- Terminal fate of one XMLHttpRequest as seen by the wrapper's listeners:
either the `load` event fires (with a status, the response text and the
elapsed duration), or the `error` event fires, or neither fires before the
session ends. -/
inductive XhrOutcome where
  | loaded (status : Nat) (responseText : String) (duration : Nat)
  | netError
  | pending

/-- Body of a resolved fetch response, with Fetch body-consumption
semantics: a `readable` body is a non-null stream holding `text` — reading
it (via `json()` or `text()`) consumes it, and any further read of the same
clone throws; a `nullBody` response (e.g. 204) has no stream, so `json()`
rejects while `text()` still resolves to the empty string; an `unreadable`
body rejects every consumption attempt. -/
inductive FetchBodyRead where
  | readable (text : String)
  | nullBody
  | unreadable

/-- Fate of one `fetch` call: the real promise resolves with a response,
rejects with an error message, or never settles before the session ends. -/
inductive FetchOutcome where
  | resolved (status : Nat) (body : FetchBodyRead) (duration : Nat)
  | rejected (msg : String)
  | pending

/-- One outbound call through the wrapped `XMLHttpRequest` (method and url
were captured by the `open` wrapper, the body by the `send` wrapper). -/
structure XhrCall where
  url : String
  method : String
  timestamp : String
  body : Option SendBody
  outcome : XhrOutcome

/-- One outbound call through the wrapped `window.fetch`. -/
structure FetchCall where
  url : String
  methodOpt : Option String
  bodyOpt : Option String
  timestamp : String
  outcome : FetchOutcome

/-- The `requestData` record pushed onto `capturedData.requests` in
`extract_no_har.js` (console/bookkeeping fields `statusText`,
`responseSize` and `responseHeaders` are not modelled). -/
structure RequestData where
  id : Nat
  url : String
  method : String
  timestamp : String
  rtype : String
  requestBody : Option String
  status : Option Nat
  duration : Option Nat
  response : Option JVal
  responseText : Option String
  error : Option String

/-- The wrapped `XMLHttpRequest.prototype.send` of `extract_no_har.js`.
When the URL matches the filter it increments the request counter and
installs `load`/`error` listeners which build the captured record; the
record produced (if the call reaches a terminal event) is returned together
with the new counter.  Independently of capture, the wrapper returns the
original `send`'s result unchanged. -/
def xhrSendWrapper {α : Type} (parse : String → Option JVal) (counter : Nat)
    (c : XhrCall) (realSendResult : α) : (Nat × Option RequestData) × α :=
  ((if matchesFilter c.url then
      (counter + 1,
        match c.outcome with
        | .loaded st txt dur =>
            some { id := counter + 1, url := c.url, method := c.method,
                   timestamp := c.timestamp, rtype := "xhr",
                   requestBody := reqBodyRepr c.body,
                   status := some st, duration := some dur,
                   response := parse txt,
                   responseText :=
                     if (parse txt).isSome then none else some (strTake txt 1000),
                   error := none }
        | .netError =>
            some { id := counter + 1, url := c.url, method := c.method,
                   timestamp := c.timestamp, rtype := "xhr",
                   requestBody := reqBodyRepr c.body,
                   status := some 0, duration := none,
                   response := none, responseText := none,
                   error := some "Network Error" }
        | .pending => none)
    else (counter, none)),
   realSendResult)

/-- The wrapped `window.fetch` of `extract_no_har.js`.  For a matching URL
the counter is incremented and a record is built from the awaited real
response; the wrapper makes a SINGLE clone: `clone.json()` consumes its
body, so when the parse fails on a readable body the subsequent
`clone.text()` throws on the already-consumed stream and the inner catch
records no preview — only a null body (never consumed, `text()` resolves
`""`) reaches the 1000-character preview assignment.  A caught network
error is recorded and rethrown.  The second component is what the wrapper
itself returns/throws to the caller: always the real outcome. -/
def fetchWrapper (parse : String → Option JVal) (counter : Nat) (c : FetchCall) :
    (Nat × Option RequestData) × FetchOutcome :=
  if matchesFilter c.url then
    match c.outcome with
    | .resolved st body dur =>
        ((counter + 1,
          some { id := counter + 1, url := c.url, method := jsMethod c.methodOpt,
                 timestamp := c.timestamp, rtype := "fetch",
                 requestBody := jsBodyOrNull c.bodyOpt,
                 status := some st, duration := some dur,
                 response :=
                   match body with
                   | .readable t => parse t
                   | .nullBody => none
                   | .unreadable => none,
                 responseText :=
                   match body with
                   | .readable _ => none
                   | .nullBody => some (strTake "" 1000)
                   | .unreadable => none,
                 error := none }),
         .resolved st body dur)
    | .rejected msg =>
        ((counter + 1,
          some { id := counter + 1, url := c.url, method := jsMethod c.methodOpt,
                 timestamp := c.timestamp, rtype := "fetch",
                 requestBody := jsBodyOrNull c.bodyOpt,
                 status := none, duration := none,
                 response := none, responseText := none,
                 error := some msg }),
         .rejected msg)
    | .pending => ((counter + 1, none), .pending)
  else ((counter, none), c.outcome)

/-- An observed outbound call through either wrapped entry point. -/
inductive Call where
  | xhrC (c : XhrCall)
  | fetchC (c : FetchCall)

/-- URL of an observed call. -/
def Call.url : Call → String
  | .xhrC c => c.url
  | .fetchC c => c.url

/-- Whether the call reaches a terminal completion event (its `load`/`error`
listener fires, or its fetch promise settles) before the session ends. -/
def Call.terminal : Call → Bool
  | .xhrC c =>
      match c.outcome with
      | .pending => false
      | _ => true
  | .fetchC c =>
      match c.outcome with
      | .pending => false
      | _ => true

/-- Effect of one observed call on the capture state: the updated request
counter and the record (if any) pushed onto `capturedData.requests`. -/
def stepCall (parse : String → Option JVal) (counter : Nat) : Call → Nat × Option RequestData
  | .xhrC c => (xhrSendWrapper parse counter c ()).1
  | .fetchC c => (fetchWrapper parse counter c).1

/-- The captured records of a sequence of observed calls in ISSUANCE order,
threading the request counter (`requestCounter++` runs synchronously at
issuance, so the ids here are the ids the source assigns).  Records are
pushed onto `capturedData.requests` at completion, not issuance: the
stop-time buffer is some completion-order permutation of this list, since
overlapping calls may complete out of issuance order. -/
def sessionBuffer (parse : String → Option JVal) : List Call → Nat → List RequestData
  | [], _ => []
  | call :: rest, counter =>
      ((stepCall parse counter call).2).toList ++
        sessionBuffer parse rest (stepCall parse counter call).1

/-- Number of observed calls whose URL matches the filter. -/
def matchCount (calls : List Call) : Nat :=
  calls.countP (fun c => matchesFilter (Call.url c))

/-- Number of the fields `response`, `responseText`, `error` present on a
captured record. -/
def terminalFieldCount (r : RequestData) : Nat :=
  (if r.response.isSome then 1 else 0) +
    (if r.responseText.isSome then 1 else 0) +
    (if r.error.isSome then 1 else 0)

/-- One entry of `outputData.api_calls` in `stopCapture`. -/
structure ApiCallOut where
  url : String
  method : String
  status : Option Nat
  timestamp : String
  response : JVal
  duration_ms : Option Nat

/-- The per-call projection inside `stopCapture`:
`response: req.response || req.responseText || null` with JavaScript
truthiness. -/
def projectCall (r : RequestData) : ApiCallOut :=
  { url := r.url, method := r.method, status := r.status,
    timestamp := r.timestamp,
    response :=
      match r.response with
      | some v => if jsTruthy v then v else textOrNull r.responseText
      | none => textOrNull r.responseText,
    duration_ms := r.duration }

/-- The `outputData` artifact assembled by `stopCapture`. -/
structure OutputData where
  scrape_timestamp : String
  url : String
  api_calls : List ApiCallOut
  total_captured : Nat

/-- Builds `outputData` from the page URL, the stop timestamp and the
captured buffer, as in `stopCapture` of `extract_no_har.js`. -/
def outputData (pageUrl stoppedAt : String) (requests : List RequestData) : OutputData :=
  { scrape_timestamp := stoppedAt, url := pageUrl,
    api_calls := requests.map projectCall,
    total_captured := requests.length }

/-- Which implementation a patched global entry point currently holds. -/
inductive NetImpl where
  | original
  | wrapped

/-- Page-global state relevant to `extract_no_har.js`: the three patched
entry points, the `capturedData.stopped` field, the captured buffer and the
number of export downloads that have been triggered. -/
structure PageState where
  fetchImpl : NetImpl
  xhrOpenImpl : NetImpl
  xhrSendImpl : NetImpl
  stopped : Option String
  exportCount : Nat
  requests : List RequestData
  pageUrl : String

/-- `window.stopCapture` of `extract_no_har.js`: restores the three original
entry points, stamps `capturedData.stopped`, builds `outputData` from the
buffer and triggers a download of it (counted in `exportCount`).  There is
no already-stopped guard in the source. -/
def stopCapture (now : String) (s : PageState) : PageState × OutputData :=
  ({ s with fetchImpl := .original, xhrOpenImpl := .original, xhrSendImpl := .original,
            stopped := some now, exportCount := s.exportCount + 1 },
   outputData s.pageUrl now s.requests)

/-! ## Embedding of `extract_data_simple.js` -/

/-- The URL filter of `extract_data_simple.js`:
`url.includes('api.mpg') || url.includes('mpg.football')`. -/
def matchesSimpleFilter (url : String) : Bool :=
  strContainsSub url "api.mpg" || strContainsSub url "mpg.football"

/-- Fate of one XMLHttpRequest in the simple variant.  Only a `load`
listener is installed there, so a network error is a distinct, unobserved
outcome. -/
inductive SimpleXhrOutcome where
  | loaded (status : Nat) (responseText : String)
  | netError
  | pending

/-- One XMLHttpRequest observed by the simple variant. -/
structure SimpleXhrCall where
  url : String
  method : String
  timestamp : String
  outcome : SimpleXhrOutcome

/-- One `fetch` call observed by the simple variant. -/
structure SimpleFetchCall where
  url : String
  methodOpt : Option String
  timestamp : String
  outcome : FetchOutcome

/-- The `requestInfo` record pushed onto `capturedRequests` in
`extract_data_simple.js`. -/
structure SimpleRequestInfo where
  url : String
  method : String
  timestamp : String
  rtype : String
  status : Option Nat
  response : Option JVal
  response_text : Option String

/-- The wrapped `XMLHttpRequest.prototype.send` of `extract_data_simple.js`:
for a matching URL a `load` listener records status and parsed JSON (else a
500-character preview in `response_text`).  No `error` listener is
installed, so a failing request records nothing. -/
def simpleXhrCapture (parse : String → Option JVal) (c : SimpleXhrCall) :
    Option SimpleRequestInfo :=
  if matchesSimpleFilter c.url then
    match c.outcome with
    | .loaded st txt =>
        some { url := c.url, method := c.method, timestamp := c.timestamp,
               rtype := "xhr", status := some st,
               response := parse txt,
               response_text :=
                 if (parse txt).isSome then none else some (strTake txt 500) }
    | .netError => none
    | .pending => none
  else none

/-- The wrapped `window.fetch` of `extract_data_simple.js`: the real fetch
is awaited with no surrounding try/catch, so a rejected call propagates
before any capture logic runs and records nothing.  A resolved matching
call is recorded; unlike `extract_no_har.js`, each consumption attempt
makes a FRESH `response.clone()`, so after a failed `json()` the `text()`
fallback really does read the body and a 500-character `response_text`
preview is recorded (a null body previews as `""`; an unreadable body
records neither field).  The second component is what the caller observes:
always the real outcome. -/
def simpleFetchWrapper (parse : String → Option JVal) (c : SimpleFetchCall) :
    Option SimpleRequestInfo × FetchOutcome :=
  match c.outcome with
  | .rejected msg => (none, .rejected msg)
  | .pending => (none, .pending)
  | .resolved st body dur =>
      ((if matchesSimpleFilter c.url then
          some { url := c.url, method := jsMethod c.methodOpt,
                 timestamp := c.timestamp, rtype := "fetch", status := some st,
                 response :=
                   match body with
                   | .readable t => parse t
                   | .nullBody => none
                   | .unreadable => none,
                 response_text :=
                   match body with
                   | .readable t =>
                       if (parse t).isSome then none else some (strTake t 500)
                   | .nullBody => some (strTake "" 500)
                   | .unreadable => none }
        else none),
       .resolved st body dur)

/-- The `data` artifact assembled at the end of `extract_data_simple.js`. -/
structure SimpleData where
  scrape_timestamp : String
  url : String
  api_calls : List SimpleRequestInfo
  total_captured : Nat

/-- Builds the `data` object of `extract_data_simple.js`: the captured
requests verbatim plus their count. -/
def simpleExport (pageUrl ts : String) (capturedRequests : List SimpleRequestInfo) :
    SimpleData :=
  { scrape_timestamp := ts, url := pageUrl,
    api_calls := capturedRequests,
    total_captured := capturedRequests.length }

/-! ## Embedding of the unnamed full extractor (`src/unnamed/part_002`) -/

/-- Runtime JavaScript values as traversed by `safeSerialize`.  Arrays and
objects hold references (heap addresses), so cyclic object graphs are
representable. -/
inductive JSVal where
  | vnull
  | vundef
  | vbool (b : Bool)
  | vnum (n : Int)
  | vstr (s : String)
  | vfun
  | varr (elems : List Nat)
  | vobj (fields : List (String × Nat))

/-- Output trees of `safeSerialize`: JSON-safe data plus the sentinel
strings it substitutes. -/
inductive STree where
  | snull
  | sundef
  | sbool (b : Bool)
  | snum (n : Int)
  | sstr (s : String)
  | sarr (elems : List STree)
  | sobj (fields : List (String × STree))

/-- The key skip test inside `safeSerialize`:
`key === 'toJSON' || key.includes('iframe') || key.includes('frame')`. -/
def skipKey (key : String) : Bool :=
  key == "toJSON" || strContainsSub key "iframe" || strContainsSub key "frame"

/-- The `safeSerialize(obj, maxDepth = 3, currentDepth = 0)` helper of the
full extractor, over the reference-heap model: beyond `maxDepth` it returns
the `'[Max Depth Reached]'` sentinel; primitives pass through; functions map
to `'[Function]'`; arrays recurse element-wise and objects key-wise at
`currentDepth + 1`, skipping known-problematic keys.  (In this model
property reads do not throw, so the access-denied catch branches of the
source are unreachable.) -/
def safeSerialize (heap : Nat → JSVal) (obj : Nat) (maxDepth currentDepth : Nat) : STree :=
  if _h : currentDepth > maxDepth then .sstr "[Max Depth Reached]"
  else
    match heap obj with
    | .vnull => .snull
    | .vundef => .sundef
    | .vstr s => .sstr s
    | .vnum n => .snum n
    | .vbool b => .sbool b
    | .vfun => .sstr "[Function]"
    | .varr elems =>
        .sarr (elems.map (fun e => safeSerialize heap e maxDepth (currentDepth + 1)))
    | .vobj fields =>
        .sobj ((fields.filter (fun kv => !skipKey kv.1)).map
          (fun kv => (kv.1, safeSerialize heap kv.2 maxDepth (currentDepth + 1))))
termination_by maxDepth + 1 - currentDepth
decreasing_by
  all_goals omega

/-- Height of a serialized tree (leaves count 1). -/
def STree.height : STree → Nat
  | .snull => 1
  | .sundef => 1
  | .sbool _ => 1
  | .snum _ => 1
  | .sstr _ => 1
  | .sarr elems => 1 + (elems.attach.map (fun e => STree.height e.1)).foldr max 0
  | .sobj fields => 1 + (fields.attach.map (fun kv => STree.height kv.1.2)).foldr max 0
termination_by t => sizeOf t
decreasing_by
  · have h1 := List.sizeOf_lt_of_mem e.2
    simp only [STree.sarr.sizeOf_spec]
    omega
  · obtain ⟨⟨k, v⟩, hm⟩ := kv
    have h1 := List.sizeOf_lt_of_mem hm
    simp only [STree.sobj.sizeOf_spec, Prod.mk.sizeOf_spec] at h1 ⊢
    omega

/-- The `requestInfo` record of the full extractor (note the always-present
`type` tag and the `response_type`/`response_preview` pair). -/
structure ExtractedCall where
  url : String
  method : String
  timestamp : String
  rtype : String
  status : Option Nat
  response : Option JVal
  response_type : Option String
  response_preview : Option String
  error : Option String

/-- The JSON keys present on a serialized `requestInfo` record of the full
extractor (`url`, `method`, `timestamp` and `type` are always set; the rest
only when assigned). -/
def extractedCallKeys (r : ExtractedCall) : List String :=
  ["url", "method", "timestamp", "type"]
    ++ (if r.status.isSome then ["status"] else [])
    ++ (if r.response.isSome then ["response"] else [])
    ++ (if r.response_type.isSome then ["response_type"] else [])
    ++ (if r.response_preview.isSome then ["response_preview"] else [])
    ++ (if r.error.isSome then ["error"] else [])

/-- The in-memory `data` object of the full extractor at export time:
timestamps, page URL, the ambient `extracted_data` entries (localStorage,
sessionStorage, serialized globals) and the captured `api_calls`. -/
structure ExtractData where
  scrape_timestamp : String
  url : String
  extracted : List (String × STree)
  api_calls : List ExtractedCall

/-- The JSON document actually downloaded by the full extractor: either the
whole `data` object, or (after a serialization failure) `fallbackData`,
which has no `extracted_data` and carries a `note`. -/
structure Artifact002 where
  scrape_timestamp : String
  url : String
  extracted : Option (List (String × STree))
  api_calls : List ExtractedCall
  note : Option String

/-- The primary export: the full `data` object, ambient state included. -/
def fullArtifact (d : ExtractData) : Artifact002 :=
  { scrape_timestamp := d.scrape_timestamp, url := d.url,
    extracted := some d.extracted, api_calls := d.api_calls, note := none }

/-- The `fallbackData` object built in the catch branch of the full
extractor: same timestamps, page URL and the `api_calls` list passed through
unmodified, ambient `extracted_data` dropped, plus an explanatory note. -/
def fallbackData (d : ExtractData) : Artifact002 :=
  { scrape_timestamp := d.scrape_timestamp, url := d.url,
    extracted := none, api_calls := d.api_calls,
    note := some "Some data could not be serialized due to security restrictions" }

/-- The export step of the full extractor: serialize the full artifact;
if that throws (`fullSerializeOk = false`, decided by the host
`JSON.stringify`), build and download `fallbackData` instead. -/
def exportData (fullSerializeOk : Bool) (d : ExtractData) : Artifact002 :=
  if fullSerializeOk then fullArtifact d else fallbackData d

/-! ## Supporting lemmas -/

lemma strTake_length_le (s : String) (n : Nat) : (strTake s n).length ≤ n := by
  show (s.data.take n).length ≤ n
  simp [List.length_take]

lemma stepCall_fst (parse : String → Option JVal) (k : Nat) (call : Call) :
    (stepCall parse k call).1 = k + (if matchesFilter (Call.url call) then 1 else 0) := by
  cases call with
  | xhrC c =>
      by_cases h : matchesFilter c.url <;>
        cases hc : c.outcome <;> simp [stepCall, xhrSendWrapper, Call.url, h, hc]
  | fetchC c =>
      by_cases h : matchesFilter c.url <;>
        cases hc : c.outcome <;> simp [stepCall, fetchWrapper, Call.url, h, hc]

lemma stepCall_isSome (parse : String → Option JVal) (k : Nat) (call : Call) :
    ((stepCall parse k call).2).isSome = (matchesFilter (Call.url call) && Call.terminal call) := by
  cases call with
  | xhrC c =>
      by_cases h : matchesFilter c.url <;>
        cases hc : c.outcome <;>
          simp [stepCall, xhrSendWrapper, Call.url, Call.terminal, h, hc]
  | fetchC c =>
      by_cases h : matchesFilter c.url <;>
        cases hc : c.outcome <;>
          simp [stepCall, fetchWrapper, Call.url, Call.terminal, h, hc]

lemma stepCall_fieldCount (parse : String → Option JVal) (k : Nat) (call : Call)
    (r : RequestData) (h : (stepCall parse k call).2 = some r) : terminalFieldCount r ≤ 1 := by
  cases call with
  | xhrC c =>
      by_cases hm : matchesFilter c.url <;> cases hc : c.outcome <;>
        simp [stepCall, xhrSendWrapper, hm, hc] at h
      case pos.loaded st txt dur =>
        cases hp : (parse txt).isSome <;> simp [← h, terminalFieldCount, hp]
      case pos.netError => simp [← h, terminalFieldCount]
  | fetchC c =>
      by_cases hm : matchesFilter c.url <;> cases hc : c.outcome <;>
        simp [stepCall, fetchWrapper, hm, hc] at h
      case pos.resolved st body dur =>
        cases body with
        | readable t => cases hp : (parse t).isSome <;> simp [← h, terminalFieldCount, hp]
        | nullBody => simp [← h, terminalFieldCount]
        | unreadable => simp [← h, terminalFieldCount]
      case pos.rejected msg => simp [← h, terminalFieldCount]

lemma sessionBuffer_append (parse : String → Option JVal) (l₁ l₂ : List Call) (k : Nat) :
    sessionBuffer parse (l₁ ++ l₂) k =
      sessionBuffer parse l₁ k ++ sessionBuffer parse l₂ (k + matchCount l₁) := by
  induction l₁ generalizing k with
  | nil => simp [sessionBuffer, matchCount]
  | cons a l ih =>
      have hc : (stepCall parse k a).1 + matchCount l = k + matchCount (a :: l) := by
        rw [stepCall_fst]
        simp only [matchCount, List.countP_cons]
        by_cases hm : matchesFilter (Call.url a)
        · simp only [hm, if_true]
          omega
        · simp [hm]
      simp only [List.cons_append, sessionBuffer, List.append_eq]
      rw [ih, hc, List.append_assoc]

lemma sessionBuffer_fieldCount (parse : String → Option JVal) :
    ∀ (calls : List Call) (k : Nat) (r : RequestData),
      r ∈ sessionBuffer parse calls k → terminalFieldCount r ≤ 1 := by
  intro calls
  induction calls with
  | nil => intro k r h; simp [sessionBuffer] at h
  | cons a l ih =>
      intro k r h
      simp only [sessionBuffer, List.mem_append] at h
      rcases h with h | h
      · rw [Option.mem_toList, Option.mem_def] at h
        exact stepCall_fieldCount parse k a r h
      · exact ih _ r h

lemma foldrMaxLe {l : List Nat} {k : Nat} (h : ∀ x ∈ l, x ≤ k) : l.foldr max 0 ≤ k := by
  induction l with
  | nil => simp
  | cons a t ih =>
      simp only [List.foldr]
      exact max_le (h a (by simp)) (ih fun x hx => h x (by simp [hx]))

lemma safeSerialize_height_le :
    ∀ (k : Nat) (heap : Nat → JSVal) (obj maxDepth currentDepth : Nat),
      maxDepth + 1 - currentDepth ≤ k →
      (safeSerialize heap obj maxDepth currentDepth).height ≤ k + 1 := by
  intro k
  induction k with
  | zero =>
      intro heap obj maxDepth currentDepth h
      rw [safeSerialize]
      have hd : currentDepth > maxDepth := by omega
      simp [hd, STree.height]
  | succ n ih =>
      intro heap obj maxDepth currentDepth h
      rw [safeSerialize]
      by_cases hd : currentDepth > maxDepth
      · simp [hd, STree.height]
      · simp only [hd, dite_false]
        have hrec : maxDepth + 1 - (currentDepth + 1) ≤ n := by omega
        cases heap obj with
        | vnull => simp [STree.height]
        | vundef => simp [STree.height]
        | vbool b => simp [STree.height]
        | vnum m => simp [STree.height]
        | vstr s => simp [STree.height]
        | vfun => simp [STree.height]
        | varr elems =>
            simp only [STree.height]
            have hb : ∀ x ∈ ((elems.map
                (fun e => safeSerialize heap e maxDepth (currentDepth + 1))).attach.map
                  (fun e => STree.height e.1)), x ≤ n + 1 := by
              intro x hx
              rcases List.mem_map.mp hx with ⟨e, _, rfl⟩
              rcases List.mem_map.mp e.2 with ⟨e0, _, he⟩
              rw [← he]
              exact ih heap e0 maxDepth (currentDepth + 1) hrec
            have := foldrMaxLe hb
            omega
        | vobj fields =>
            simp only [STree.height]
            have hb : ∀ x ∈ (((fields.filter (fun kv => !skipKey kv.1)).map
                (fun kv => (kv.1, safeSerialize heap kv.2 maxDepth (currentDepth + 1)))).attach.map
                  (fun kv => STree.height kv.1.2)), x ≤ n + 1 := by
              intro x hx
              rcases List.mem_map.mp hx with ⟨kv, _, rfl⟩
              rcases List.mem_map.mp kv.2 with ⟨kv0, _, he⟩
              rw [← he]
              exact ih heap kv0.2 maxDepth (currentDepth + 1) hrec
            have := foldrMaxLe hb
            omega

/-! ## Concrete inputs used by witnesses and counterexamples -/

/-- A parse environment on which `JSON.parse` always fails. -/
def parseNone : String → Option JVal := fun _ => none

/-- An in-scope XHR whose response loads but is not JSON. -/
def demoXhrCall : XhrCall :=
  { url := "https://api.mpg.football/api/league/test", method := "GET",
    timestamp := "2026-10-11T00:00:00Z", body := none,
    outcome := .loaded 200 "ok" 5 }

/-- The record `stepCall` pushes for `demoXhrCall` under `parseNone`. -/
def demoRec : RequestData :=
  { id := 1, url := "https://api.mpg.football/api/league/test", method := "GET",
    timestamp := "2026-10-11T00:00:00Z", rtype := "xhr", requestBody := none,
    status := some 200, duration := some 5, response := none,
    responseText := some (strTake "ok" 1000), error := none }

/-- An in-scope XHR that hits the `error` listener. -/
def demoXhrNetErr : XhrCall :=
  { url := "https://api.mpg.football/api/live", method := "POST",
    timestamp := "t", body := none, outcome := .netError }

/-- An in-scope fetch whose promise rejects. -/
def demoFetchErr : FetchCall :=
  { url := "https://api.mpg.football/api/live", methodOpt := none, bodyOpt := none,
    timestamp := "t", outcome := .rejected "Failed to fetch" }

/-- An in-scope fetch that resolves but whose body can be neither parsed as
JSON nor read as text. -/
def demoUnreadable : FetchCall :=
  { url := "https://api.mpg.football/api/blob", methodOpt := some "GET", bodyOpt := none,
    timestamp := "t", outcome := .resolved 200 .unreadable 7 }

/-- An in-scope fetch of the simple variant whose promise rejects. -/
def demoSimpleFetchErr : SimpleFetchCall :=
  { url := "https://api.mpg.football/api/league", methodOpt := none, timestamp := "t",
    outcome := .rejected "Failed to fetch" }

/-- An in-scope XHR with a non-JSON body (main variant). -/
def demoNonJsonXhr : XhrCall :=
  { url := "https://api.mpg.football/api/a", method := "GET", timestamp := "t",
    body := none, outcome := .loaded 404 "not found" 3 }

/-- An in-scope fetch with a readable non-JSON body (main variant). -/
def demoNonJsonFetch : FetchCall :=
  { url := "https://api.mpg.football/api/b", methodOpt := none, bodyOpt := none,
    timestamp := "t", outcome := .resolved 404 (.readable "not found") 4 }

/-- The record the main variant's fetch wrapper builds for
`demoNonJsonFetch` under `parseNone` at counter 1: no structured response
and no preview. -/
def demoRec2 : RequestData :=
  { id := 2, url := "https://api.mpg.football/api/b", method := "GET",
    timestamp := "t", rtype := "fetch", requestBody := none, status := some 404,
    duration := some 4, response := none, responseText := none, error := none }

/-- An in-scope fetch resolving with a null body (main variant). -/
def demoNullBodyFetch : FetchCall :=
  { url := "https://api.mpg.football/api/nb", methodOpt := none, bodyOpt := none,
    timestamp := "t", outcome := .resolved 204 .nullBody 4 }

/-- An in-scope fetch with a readable non-JSON body (simple variant). -/
def demoNonJsonSimpleFetch : SimpleFetchCall :=
  { url := "https://mpg.football/api/d", methodOpt := none, timestamp := "t",
    outcome := .resolved 404 (.readable "not found") 6 }

/-- An in-scope XHR with a non-JSON body (simple variant). -/
def demoNonJsonSimpleXhr : SimpleXhrCall :=
  { url := "https://mpg.football/api/c", method := "GET", timestamp := "t",
    outcome := .loaded 404 "not found" }

/-- Page state right after `extract_no_har.js` has installed its wrappers. -/
def freshState : PageState :=
  { fetchImpl := .wrapped, xhrOpenImpl := .wrapped, xhrSendImpl := .wrapped,
    stopped := none, exportCount := 0, requests := [],
    pageUrl := "https://mpg.football/league/x/trading" }

/-- A heap with a self-referential object: address 0 holds an object whose
`self` field points back to address 0. -/
def cycHeap : Nat → JSVal := fun _ => .vobj [("self", 0)]

/-- A captured record of the full extractor holding a text preview. -/
def demoExtractedCall : ExtractedCall :=
  { url := "https://api.mpg.football/api/x", method := "GET", timestamp := "t",
    rtype := "fetch", status := some 200, response := none,
    response_type := some "text", response_preview := some "<html>", error := none }

/-- Export-time data of the full extractor with one captured call and one
ambient entry. -/
def demoExtract : ExtractData :=
  { scrape_timestamp := "t0", url := "https://mpg.football/league/x/trading",
    extracted := [("localStorage", .sobj [])], api_calls := [demoExtractedCall] }

/-- A captured record whose parsed response is the falsy JSON value
`false`. -/
def demoFalsyRec : RequestData :=
  { id := 1, url := "https://api.mpg.football/api/status", method := "GET",
    timestamp := "t", rtype := "xhr", requestBody := none, status := some 200,
    duration := some 3, response := some (.jbool false), responseText := none,
    error := none }

/-! ## Claim theorems -/

/-- C1: for every capture session, the exported artifact satisfies
`total_captured == length(api_calls)` — in `extract_no_har.js` and in
`extract_data_simple.js`, including the zero-calls case. -/
theorem c1_total_captured_eq_length :
    (∀ (u t : String) (reqs : List RequestData),
        (outputData u t reqs).total_captured = (outputData u t reqs).api_calls.length) ∧
    (∀ (u t : String) (reqs : List SimpleRequestInfo),
        (simpleExport u t reqs).total_captured = (simpleExport u t reqs).api_calls.length) ∧
    (outputData "u" "t" []).total_captured = 0 := by
  refine ⟨fun u t reqs => ?_, fun u t reqs => rfl, rfl⟩
  simp [outputData]

/-- C2 counterexample: invoking `stopCapture` a second time is not a no-op
and does not yield exactly one export in total — starting from a fresh
session, two stop invocations trigger two export downloads, and the second
invocation restamps the stop timestamp. -/
theorem c2_counterexample :
    ((stopCapture "t2" (stopCapture "t1" freshState).1).1).exportCount = 2 ∧
    ((stopCapture "t2" (stopCapture "t1" freshState).1).1).stopped = some "t2" :=
  ⟨rfl, rfl⟩

/-- C2 amended: a second `stopCapture` does not throw and leaves the
original entry points in place (re-restoring them to the same originals),
but it re-runs the whole stop sequence: every invocation emits one export
download, so two stops emit two exports of the same captured calls. -/
theorem c2_second_stop_reexports (s : PageState) (t₁ t₂ : String) :
    ((stopCapture t₁ s).1).fetchImpl = .original ∧
    ((stopCapture t₁ s).1).xhrOpenImpl = .original ∧
    ((stopCapture t₁ s).1).xhrSendImpl = .original ∧
    ((stopCapture t₂ (stopCapture t₁ s).1).1).fetchImpl = .original ∧
    ((stopCapture t₂ (stopCapture t₁ s).1).1).xhrOpenImpl = .original ∧
    ((stopCapture t₂ (stopCapture t₁ s).1).1).xhrSendImpl = .original ∧
    ((stopCapture t₂ (stopCapture t₁ s).1).1).exportCount = s.exportCount + 2 ∧
    (stopCapture t₂ (stopCapture t₁ s).1).2.api_calls = (stopCapture t₁ s).2.api_calls ∧
    (stopCapture t₂ (stopCapture t₁ s).1).2.total_captured
      = (stopCapture t₁ s).2.total_captured :=
  ⟨rfl, rfl, rfl, rfl, rfl, rfl, rfl, rfl, rfl⟩

/-- C3: an outbound call observed by `extract_no_har.js` that reaches a
terminal completion event is recorded in the buffer if and only if its URL
matches the filter (`api.mpg` or `mpg.football/api` as a substring);
non-matching calls are never recorded. -/
theorem c3_recorded_iff_filter (parse : String → Option JVal) (k : Nat) (call : Call)
    (ht : Call.terminal call = true) :
    ((stepCall parse k call).2).isSome = matchesFilter (Call.url call) := by
  rw [stepCall_isSome, ht, Bool.and_true]

/-- C3 witness: the filter equivalence instantiated at a concrete in-scope,
completed XHR call. -/
theorem c3_witness :
    ((stepCall parseNone 0 (Call.xhrC demoXhrCall)).2).isSome
      = matchesFilter (Call.url (Call.xhrC demoXhrCall)) :=
  c3_recorded_iff_filter parseNone 0 (Call.xhrC demoXhrCall) rfl

/-- C4 counterexample: in `extract_data_simple.js` an in-scope fetch whose
underlying network operation fails is NOT appended to the buffer at all
(the wrapper has no catch), contradicting the claim that every failing
in-scope call is recorded with an `error` field. -/
theorem c4_counterexample :
    matchesSimpleFilter demoSimpleFetchErr.url = true ∧
    (simpleFetchWrapper parseNone demoSimpleFetchErr).1 = none ∧
    (simpleFetchWrapper parseNone demoSimpleFetchErr).2 = .rejected "Failed to fetch" :=
  ⟨rfl, rfl, rfl⟩

/-- C4 amended: in `extract_no_har.js` a failing in-scope call is appended
with its `error` field set (`'Network Error'` for the XHR error listener,
the thrown message for fetch) and the session keeps capturing around it;
in `extract_data_simple.js` failing calls are simply not recorded. -/
theorem c4_transport_error_recorded (parse : String → Option JVal) (k : Nat)
    (pre post : List Call) (c : XhrCall) (f : FetchCall) (msg : String)
    (hcu : matchesFilter c.url = true) (hco : c.outcome = .netError)
    (hfu : matchesFilter f.url = true) (hfo : f.outcome = .rejected msg) :
    (∃ r, (stepCall parse k (Call.xhrC c)).2 = some r ∧
        r.error = some "Network Error" ∧ r.status = some 0) ∧
    (∃ r, (stepCall parse k (Call.fetchC f)).2 = some r ∧ r.error = some msg) ∧
    (∃ r, sessionBuffer parse (pre ++ Call.xhrC c :: post) k =
        sessionBuffer parse pre k ++
          r :: sessionBuffer parse post (k + matchCount pre + 1) ∧
        r.error = some "Network Error") := by
  have ex : ∀ m, (stepCall parse m (Call.xhrC c)).2 = some
      { id := m + 1, url := c.url, method := c.method, timestamp := c.timestamp,
        rtype := "xhr", requestBody := reqBodyRepr c.body, status := some 0,
        duration := none, response := none, responseText := none,
        error := some "Network Error" } := by
    intro m
    simp [stepCall, xhrSendWrapper, hcu, hco]
  have ef : (stepCall parse k (Call.fetchC f)).2 = some
      { id := k + 1, url := f.url, method := jsMethod f.methodOpt,
        timestamp := f.timestamp, rtype := "fetch",
        requestBody := jsBodyOrNull f.bodyOpt, status := none, duration := none,
        response := none, responseText := none, error := some msg } := by
    simp [stepCall, fetchWrapper, hfu, hfo]
  refine ⟨⟨_, ex k, rfl, rfl⟩, ⟨_, ef, rfl⟩,
    ⟨{ id := k + matchCount pre + 1, url := c.url, method := c.method,
       timestamp := c.timestamp, rtype := "xhr", requestBody := reqBodyRepr c.body,
       status := some 0, duration := none, response := none, responseText := none,
       error := some "Network Error" }, ?_, rfl⟩⟩
  rw [sessionBuffer_append]
  have hfst : (stepCall parse (k + matchCount pre) (Call.xhrC c)).1
      = k + matchCount pre + 1 := by
    rw [stepCall_fst]
    simp [Call.url, hcu]
  simp only [sessionBuffer, ex (k + matchCount pre), hfst, Option.toList_some,
    List.singleton_append]

/-- C4 witness: the amended statement instantiated at concrete failing
in-scope calls with empty surrounding traffic. -/
theorem c4_witness :
    (∃ r, (stepCall parseNone 0 (Call.xhrC demoXhrNetErr)).2 = some r ∧
        r.error = some "Network Error" ∧ r.status = some 0) ∧
    (∃ r, (stepCall parseNone 0 (Call.fetchC demoFetchErr)).2 = some r ∧
        r.error = some "Failed to fetch") ∧
    (∃ r, sessionBuffer parseNone ([] ++ Call.xhrC demoXhrNetErr :: []) 0 =
        sessionBuffer parseNone [] 0 ++
          r :: sessionBuffer parseNone [] (0 + matchCount [] + 1) ∧
        r.error = some "Network Error") :=
  c4_transport_error_recorded parseNone 0 [] [] demoXhrNetErr demoFetchErr
    "Failed to fetch" rfl rfl rfl rfl

/-- C5: `safeSerialize` is total (it terminates on every heap, cyclic ones
included), any subtree reached beyond the configured maximum depth is
replaced by the `'[Max Depth Reached]'` sentinel, and the output tree's
height is bounded by the remaining depth budget, so the recursion is never
unbounded. -/
theorem c5_safeSerialize_depth_bounded :
    (∀ (heap : Nat → JSVal) (obj maxDepth currentDepth : Nat),
        maxDepth < currentDepth →
          safeSerialize heap obj maxDepth currentDepth = .sstr "[Max Depth Reached]") ∧
    (∀ (heap : Nat → JSVal) (obj maxDepth currentDepth : Nat),
        (safeSerialize heap obj maxDepth currentDepth).height
          ≤ maxDepth + 2 - min currentDepth (maxDepth + 1)) := by
  constructor
  · intro heap obj maxDepth currentDepth h
    rw [safeSerialize]
    simp [show currentDepth > maxDepth from h]
  · intro heap obj maxDepth currentDepth
    have h := safeSerialize_height_le (maxDepth + 1 - min currentDepth (maxDepth + 1))
      heap obj maxDepth currentDepth (by omega)
    omega

/-- C5 witness: on the self-referential heap, serialization past the bound
yields the sentinel, and from depth 0 with the default bound 3 the result
height stays within the budget. -/
theorem c5_witness :
    safeSerialize cycHeap 0 3 4 = .sstr "[Max Depth Reached]" ∧
    (safeSerialize cycHeap 0 3 0).height ≤ 3 + 2 - min 0 (3 + 1) :=
  ⟨c5_safeSerialize_depth_bounded.1 cycHeap 0 3 4 (by omega),
   c5_safeSerialize_depth_bounded.2 cycHeap 0 3 0⟩

/-- C6 counterexample: in the fetch wrapper of `extract_no_har.js` an
in-scope call whose readable response body is not JSON is recorded with NO
text preview at all — the single clone was already consumed by the failed
`json()` attempt, so the `text()` fallback throws and the inner catch sets
nothing — contradicting the claim that every in-scope non-JSON call
carries a truncated preview. -/
theorem c6_counterexample :
    matchesFilter demoNonJsonFetch.url = true ∧
    parseNone "not found" = none ∧
    ((stepCall parseNone 0 (Call.fetchC demoNonJsonFetch)).2.map
        (fun r => (r.response.isSome, r.responseText.isSome))) = some (false, false) :=
  ⟨rfl, rfl, rfl⟩

/-- C6 amended: the truncated non-JSON preview is recorded on the paths
where it is reachable — the XHR wrapper of `extract_no_har.js` (1000
characters) and the XHR and fetch wrappers of `extract_data_simple.js`
(500 characters; its fetch re-clones per attempt) — while the fetch
wrapper of `extract_no_har.js` records no preview for a readable non-JSON
body (its single clone is already consumed) and reaches its preview
assignment only for a null body, as the empty string; in every case the
parse failure is absorbed into the record, with no structured response. -/
theorem c6_nonjson_preview_amended (parse : String → Option JVal)
    (k st1 st2 st3 st4 st5 dur3 dur4 dur5 : Nat) (txt : String) (hp : parse txt = none)
    (c : XhrCall) (hcu : matchesFilter c.url = true) (hco : c.outcome = .loaded st1 txt dur3)
    (sc : SimpleXhrCall) (hsu : matchesSimpleFilter sc.url = true)
    (hso : sc.outcome = .loaded st2 txt)
    (sf : SimpleFetchCall) (hsfu : matchesSimpleFilter sf.url = true)
    (hsfo : sf.outcome = .resolved st3 (.readable txt) dur4)
    (f g : FetchCall) (hfu : matchesFilter f.url = true)
    (hfo : f.outcome = .resolved st4 (.readable txt) dur5)
    (hgu : matchesFilter g.url = true) (hgo : g.outcome = .resolved st5 .nullBody dur5) :
    (∃ r, (stepCall parse k (Call.xhrC c)).2 = some r ∧ r.response = none ∧
        r.responseText = some (strTake txt 1000) ∧ (strTake txt 1000).length ≤ 1000) ∧
    (∃ r, simpleXhrCapture parse sc = some r ∧ r.response = none ∧
        r.response_text = some (strTake txt 500) ∧ (strTake txt 500).length ≤ 500) ∧
    (∃ r, (simpleFetchWrapper parse sf).1 = some r ∧ r.response = none ∧
        r.response_text = some (strTake txt 500)) ∧
    (∃ r, (stepCall parse k (Call.fetchC f)).2 = some r ∧ r.response = none ∧
        r.responseText = none) ∧
    (∃ r, (stepCall parse k (Call.fetchC g)).2 = some r ∧ r.response = none ∧
        r.responseText = some (strTake "" 1000)) := by
  have e1 : (stepCall parse k (Call.xhrC c)).2 = some
      { id := k + 1, url := c.url, method := c.method, timestamp := c.timestamp,
        rtype := "xhr", requestBody := reqBodyRepr c.body, status := some st1,
        duration := some dur3, response := none,
        responseText := some (strTake txt 1000), error := none } := by
    simp [stepCall, xhrSendWrapper, hcu, hco, hp]
  have e2 : simpleXhrCapture parse sc = some
      { url := sc.url, method := sc.method, timestamp := sc.timestamp,
        rtype := "xhr", status := some st2, response := none,
        response_text := some (strTake txt 500) } := by
    simp [simpleXhrCapture, hsu, hso, hp]
  have e3 : (simpleFetchWrapper parse sf).1 = some
      { url := sf.url, method := jsMethod sf.methodOpt, timestamp := sf.timestamp,
        rtype := "fetch", status := some st3, response := none,
        response_text := some (strTake txt 500) } := by
    simp [simpleFetchWrapper, hsfu, hsfo, hp]
  have e4 : (stepCall parse k (Call.fetchC f)).2 = some
      { id := k + 1, url := f.url, method := jsMethod f.methodOpt,
        timestamp := f.timestamp, rtype := "fetch",
        requestBody := jsBodyOrNull f.bodyOpt, status := some st4,
        duration := some dur5, response := none, responseText := none,
        error := none } := by
    simp [stepCall, fetchWrapper, hfu, hfo, hp]
  have e5 : (stepCall parse k (Call.fetchC g)).2 = some
      { id := k + 1, url := g.url, method := jsMethod g.methodOpt,
        timestamp := g.timestamp, rtype := "fetch",
        requestBody := jsBodyOrNull g.bodyOpt, status := some st5,
        duration := some dur5, response := none,
        responseText := some (strTake "" 1000), error := none } := by
    simp [stepCall, fetchWrapper, hgu, hgo]
  exact ⟨⟨_, e1, rfl, rfl, strTake_length_le txt 1000⟩,
         ⟨_, e2, rfl, rfl, strTake_length_le txt 500⟩,
         ⟨_, e3, rfl, rfl⟩,
         ⟨_, e4, rfl, rfl⟩,
         ⟨_, e5, rfl, rfl⟩⟩

/-- C6 witness: the amended preview behaviour instantiated at concrete
in-scope calls whose response body is the non-JSON text `not found` (plus a
null-body fetch). -/
theorem c6_amended_witness :
    (∃ r, (stepCall parseNone 0 (Call.xhrC demoNonJsonXhr)).2 = some r ∧
        r.response = none ∧
        r.responseText = some (strTake "not found" 1000) ∧
        (strTake "not found" 1000).length ≤ 1000) ∧
    (∃ r, simpleXhrCapture parseNone demoNonJsonSimpleXhr = some r ∧
        r.response = none ∧ r.response_text = some (strTake "not found" 500) ∧
        (strTake "not found" 500).length ≤ 500) ∧
    (∃ r, (simpleFetchWrapper parseNone demoNonJsonSimpleFetch).1 = some r ∧
        r.response = none ∧ r.response_text = some (strTake "not found" 500)) ∧
    (∃ r, (stepCall parseNone 0 (Call.fetchC demoNonJsonFetch)).2 = some r ∧
        r.response = none ∧ r.responseText = none) ∧
    (∃ r, (stepCall parseNone 0 (Call.fetchC demoNullBodyFetch)).2 = some r ∧
        r.response = none ∧ r.responseText = some (strTake "" 1000)) :=
  c6_nonjson_preview_amended parseNone 0 404 404 404 404 204 3 6 4 "not found" rfl
    demoNonJsonXhr rfl rfl demoNonJsonSimpleXhr rfl rfl demoNonJsonSimpleFetch rfl rfl
    demoNonJsonFetch demoNullBodyFetch rfl rfl rfl rfl

/-- C7 counterexample: the buffer of a stopped session can contain a record
with NONE of `response`, `responseText`, `error` — an in-scope fetch that
resolves with a body that can be neither parsed nor read as text is still
pushed, so "exactly one of the three is present" fails. -/
theorem c7_counterexample :
    (sessionBuffer parseNone [Call.fetchC demoUnreadable] 0).map terminalFieldCount
      = [0] ∧
    (sessionBuffer parseNone [Call.fetchC demoUnreadable] 0).length = 1 :=
  ⟨rfl, rfl⟩

/-- C7 amended: once the session has stopped, every record in the buffer —
any completion-order permutation of the issuance-ordered records, since
overlapping calls may complete out of issuance order — carries at most one
of `response`, `responseText`, `error`; an in-scope fetch whose resolved
body can be neither parsed as JSON nor read as text is appended with none
of the three.  The original claim's no-duplication half is not asserted:
pushes happen at completion and re-used XMLHttpRequest objects stack their
`load` listeners, so the code does not guarantee it. -/
theorem c7_at_most_one (parse : String → Option JVal) (calls : List Call) (k : Nat)
    (buf : List RequestData) (hbuf : buf.Perm (sessionBuffer parse calls k))
    (r : RequestData) (hr : r ∈ buf) :
    terminalFieldCount r ≤ 1 :=
  sessionBuffer_fieldCount parse calls k r (hbuf.mem_iff.mp hr)

/-- C7 witness: a two-call session whose buffer arrives in reversed
completion order still satisfies the bound at a concrete entry. -/
theorem c7_at_most_one_witness :
    terminalFieldCount demoRec ≤ 1 :=
  c7_at_most_one parseNone [Call.xhrC demoXhrCall, Call.fetchC demoNonJsonFetch] 0
    [demoRec2, demoRec]
    (by rw [show sessionBuffer parseNone
              [Call.xhrC demoXhrCall, Call.fetchC demoNonJsonFetch] 0
            = [demoRec, demoRec2] from rfl]
        exact List.Perm.swap demoRec demoRec2 [])
    demoRec (by simp)

/-- C8 counterexample: the fallback artifact of the full extractor does not
restrict `api_calls` to the minimal field set — the captured records are
passed through unmodified, so each keeps its `type` tag (and here a
`response_type`), keys outside
`{url, method, status, timestamp, response-or-preview}`. -/
theorem c8_counterexample :
    (exportData false demoExtract).api_calls = demoExtract.api_calls ∧
    (exportData false demoExtract).api_calls.map extractedCallKeys
      = [["url", "method", "timestamp", "type", "status",
          "response_type", "response_preview"]] :=
  ⟨rfl, rfl⟩

/-- C8 amended: when full serialization throws, the retried fallback
artifact drops the ambient `extracted_data` entirely, keeps the session
timestamp, page URL and the `api_calls` list unmodified, and carries a note
indicating reduced fidelity. -/
theorem c8_fallback_shape (d : ExtractData) :
    (exportData true d).extracted = some d.extracted ∧
    (exportData false d).extracted = none ∧
    (exportData false d).note
      = some "Some data could not be serialized due to security restrictions" ∧
    (exportData false d).api_calls = d.api_calls ∧
    (exportData false d).scrape_timestamp = d.scrape_timestamp ∧
    (exportData false d).url = d.url :=
  ⟨rfl, rfl, rfl, rfl, rfl, rfl⟩

/-- C9: the wrappers are transparent — the wrapped fetch of both variants
returns or rethrows exactly the real call's outcome (whether or not the URL
is in scope), and the wrapped `send` returns the original `send`'s result
unchanged. -/
theorem c9_wrapper_transparency :
    (∀ (parse : String → Option JVal) (k : Nat) (f : FetchCall),
        (fetchWrapper parse k f).2 = f.outcome) ∧
    (∀ (α : Type) (parse : String → Option JVal) (k : Nat) (c : XhrCall) (res : α),
        (xhrSendWrapper parse k c res).2 = res) ∧
    (∀ (parse : String → Option JVal) (sf : SimpleFetchCall),
        (simpleFetchWrapper parse sf).2 = sf.outcome) := by
  refine ⟨fun parse k f => ?_, fun α parse k c res => rfl, fun parse sf => ?_⟩
  · by_cases h : matchesFilter f.url <;> cases hf : f.outcome <;>
      simp [fetchWrapper, h, hf]
  · cases hf : sf.outcome <;> simp [simpleFetchWrapper, hf]

/-- C10: in the export projection of `extract_no_har.js` the `response`
field is `req.response || req.responseText || null` under JavaScript
truthiness: a falsy parsed value (`null`, `false`, `0`, `""`) is replaced by
the raw response text or `null`, a truthy parsed value is kept, an absent
parsed value falls back to the text, and the artifact's calls are exactly
this projection (which has no separate `response_text` key). -/
theorem c10_response_projection :
    (∀ (r : RequestData) (v : JVal), r.response = some v → jsTruthy v = false →
        (projectCall r).response = textOrNull r.responseText) ∧
    (∀ (r : RequestData) (v : JVal), r.response = some v → jsTruthy v = true →
        (projectCall r).response = v) ∧
    (∀ r : RequestData, r.response = none →
        (projectCall r).response = textOrNull r.responseText) ∧
    (∀ (u t : String) (reqs : List RequestData),
        (outputData u t reqs).api_calls = reqs.map projectCall) := by
  refine ⟨?_, ?_, ?_, fun u t reqs => rfl⟩
  · intro r v hv hf; simp [projectCall, hv, hf]
  · intro r v hv ht; simp [projectCall, hv, ht]
  · intro r hv; simp [projectCall, hv]

/-- C10 witness: a record whose parsed response is the falsy JSON value
`false` projects to `null` (the parsed value is dropped). -/
theorem c10_witness :
    (projectCall demoFalsyRec).response = textOrNull demoFalsyRec.responseText :=
  c10_response_projection.1 demoFalsyRec (.jbool false) rfl rfl

end MPG
